import Mathlib

/-!
Shallow embedding of the compliance-scan engine of the `web-security`
repository (Python).  Pure data-flow is translated directly; network
effects are made explicit: every probe that performs I/O is embedded as a
function of the I/O outcome (fetched headers, TLS handshake outcome, DNS
answer, connection oracle), and a probe whose Python body can raise an
exception to its caller is embedded as a function into `Except`.

Main sources:
  - src/src/workers/tasks_scans.py        (evaluate_compliance, scan task)
  - src/src/services/security_checks/headers.py, cookies.py, tls.py
  - src/src/services/security_checks/check16.py, check28.py
  - src/src/services/scan_service.py, src/src/db/models/scan.py
-/

/-- Single quote character, used to build Python string literals that
contain an apostrophe. -/
def sQuote : String := String.singleton (Char.ofNat 39)

/-- Decides whether `needle` occurs as a contiguous sublist of the second
argument; embeds the Python substring test `needle in hay`. -/
def listContainsSub (needle : List Char) : List Char → Bool
  | [] => needle.isEmpty
  | c :: t => needle.isPrefixOf (c :: t) || listContainsSub needle t

/-- Python substring test `needle in hay` on strings. -/
def containsSub (hay needle : String) : Bool :=
  listContainsSub needle.toList hay.toList

/-- Python `str.lower()` (the repository only lowercases ASCII data). -/
def strLower (s : String) : String :=
  String.mk (s.data.map Char.toLower)

/-- Python `str.replace(pat, sub)` (all occurrences, left to right),
driven by a character-count fuel so that it evaluates by kernel
reduction; for the empty pattern the repository never calls it. -/
def listReplaceFuel (pat sub : List Char) : Nat → List Char → List Char
  | 0, l => l
  | _ + 1, [] => []
  | fuel + 1, c :: t =>
    if pat.isPrefixOf (c :: t) && !pat.isEmpty then
      sub ++ listReplaceFuel pat sub fuel ((c :: t).drop pat.length)
    else
      c :: listReplaceFuel pat sub fuel t

/-- Python `s.replace(pat, sub)` on strings. -/
def strReplace (s pat sub : String) : String :=
  String.mk (listReplaceFuel pat.toList sub.toList s.toList.length s.toList)

/-- Python `s.split(sep)[0]` for a one-character separator: the part of
the string before the first occurrence of the separator. -/
def takeUntilChar (s : String) (sep : Char) : String :=
  String.mk (s.toList.takeWhile (fun c => c != sep))

/-- Hostname extraction used by the scan task and the numbered checks:
`url.replace("https://", "").replace("http://", "").split(slash)[0]`. -/
def extractDomain (url : String) : String :=
  takeUntilChar (strReplace (strReplace url "https://" "") "http://" "") (Char.ofNat 47)

/-- One entry of the compliance map built by `evaluate_compliance`
(`tasks_scans.py`): the dict `{"status": .., "remark": .., "severity": ..}`. -/
structure Entry where
  status : String
  remark : String
  severity : String
deriving DecidableEq, Repr

/-- Python values stored in the `raw_data` dicts of the check modules. -/
inductive PyVal where
  | pyNone
  | str (s : String)
  | strList (l : List String)
  | dict (d : List (String × String))
deriving DecidableEq, Repr

/-- The `CheckResult` dataclass of `security_checks/__init__.py`. -/
structure CheckResult where
  checkType : String
  name : String
  severity : String
  description : String
  recommendation : String
  rawData : List (String × PyVal)
deriving DecidableEq, Repr

/-- Wraps a string in single quotes, as the Python source literals and
`!r` formatting do. -/
def pyq (s : String) : String := sQuote ++ s ++ sQuote

/-- Python truthiness of an optional string: `None` and the empty string
are falsy. -/
def truthy (o : Option String) : Bool :=
  match o with
  | Option.none => false
  | Option.some s => !s.isEmpty

/-- Python `a or b` on two optional strings (returns the first operand
when it is truthy, the second otherwise). -/
def pyOr (a b : Option String) : Option String :=
  if truthy a then a else b

/-- Dictionary lookup `d.get(k)` on a string-keyed association list. -/
def getH (hdrs : List (String × String)) (k : String) : Option String :=
  hdrs.lookup k

/-- The fields of the `Finding` ORM model (`db/models/scan.py`) that
`evaluate_compliance` and the scan task read or write. -/
structure Finding where
  name : String
  description : String
deriving DecidableEq, Repr

/-- The default compliant entry used to initialize the compliance map
(`tasks_scans.py` line 18). -/
def defaultEntry : Entry :=
  ⟨"Y", "Compliant.", "info"⟩

/-- The initial compliance map
`{str(i): {"status": "Y", "remark": "Compliant.", "severity": "info"} for i in range(1, 29)}`. -/
def complianceInit : List (String × Entry) :=
  (List.range 28).map (fun i => (toString (i + 1), defaultEntry))

/-- Python dict assignment `m[k] = e`: replaces the value when the key is
present, appends the pair otherwise. -/
def updateMap {β : Type} : List (String × β) → String → β → List (String × β)
  | [], k, e => [(k, e)]
  | p :: t, k, e => if p.1 == k then (k, e) :: t else p :: updateMap t k e

/-- The action of the port-mapping loop of `evaluate_compliance`
(lines 21-37) on one finding: `none` when the finding is skipped,
`some e` when the loop assigns entry `e` to key "1". -/
def portAction (f : Finding) : Option Entry :=
  let name := strLower f.name
  if containsSub name "port" then
    if ["8000", "8080", "8443"].any (fun p => containsSub name p) then
      some ⟨"Y",
        "WARNING: " ++ f.name ++ " detected. Alternative web ports are open but acceptable.",
        "warning"⟩
    else if ["80", "443"].any (fun p => containsSub name p) then
      none
    else
      some ⟨"N",
        "CRITICAL: " ++ f.name ++ " exposed. Non-standard service port detected.",
        "critical"⟩
  else none

/-- One iteration of the port-mapping loop of `evaluate_compliance`. -/
def portStep (m : List (String × Entry)) (f : Finding) : List (String × Entry) :=
  match portAction f with
  | some e => updateMap m "1" e
  | none => m

/-- The `header_mapping` dict of `evaluate_compliance` (lines 46-48),
read through `.get`. -/
def headerMapping (n : String) : Option String :=
  if n == "Strict-Transport-Security" then some "9"
  else if n == "Content-Security-Policy" then some "10"
  else if n == "X-Frame-Options" then some "8"
  else if n == "X-XSS-Protection" then some "7"
  else if n == "Server" then some "4"
  else if n == "X-Powered-By" then some "5"
  else if n == "Cache-Control" then some "13"
  else none

/-- One iteration of the header-mapping loop of `evaluate_compliance`
(lines 49-56). -/
def headerStep (m : List (String × Entry)) (res : CheckResult) :
    List (String × Entry) :=
  match headerMapping res.name with
  | some itemId =>
      updateMap m itemId
        (if res.severity ∈ ["high", "critical", "error"] then
          ⟨"N", "ERROR: " ++ res.description, res.severity⟩
        else
          ⟨"Y", res.description, res.severity⟩)
  | none => m

/-- One iteration of the cookie-mapping loop of `evaluate_compliance`
(lines 59-65); the membership tests on `res.name` are Python substring
tests. -/
def cookieStep (m : List (String × Entry)) (res : CheckResult) :
    List (String × Entry) :=
  if containsSub res.name "Secure" || containsSub res.name "HttpOnly" then
    updateMap m "11"
      ⟨if res.severity ∈ ["high", "critical"] then "N" else "Y",
        "CRITICAL: " ++ res.description, res.severity⟩
  else if containsSub res.name "SameSite" then
    updateMap m "12"
      ⟨if res.severity ∈ ["medium", "high"] then "N" else "Y",
        "WARNING: " ++ res.description, res.severity⟩
  else m

/-- The `tls_mapping` dict of `evaluate_compliance` (line 68), read
through `.get`. -/
def tlsMapping (n : String) : Option String :=
  if n == "Legacy TLS Protocols" then some "16"
  else if n == "Weak Cipher Suites" then some "17"
  else if n == "Forward Secrecy" then some "26"
  else none

/-- One iteration of the TLS-mapping loop of `evaluate_compliance`
(lines 69-75). -/
def tlsStep (m : List (String × Entry)) (res : CheckResult) :
    List (String × Entry) :=
  match tlsMapping res.name with
  | some itemId =>
      updateMap m itemId
        ⟨if res.severity ∈ ["high", "critical"] then "N" else "Y",
          "CRITICAL: " ++ res.description, res.severity⟩
  | none => m

/-- The `evaluate_compliance` function of `tasks_scans.py`.  The three
probe invocations `headers.run`, `cookies.run`, `tls.run` are embedded as
`Except` parameters: the Python body runs all three calls before any of
the three mapping loops, inside one try/except, so an exception in any of
them aborts steps 2-5 (the port mapping of step 1 has already run) and is
swallowed by the handler. -/
def evaluate_compliance (findings : List Finding)
    (hres cres tres : Except String (List CheckResult)) :
    List (String × Entry) :=
  let m := findings.foldl portStep complianceInit
  match hres, cres, tres with
  | .ok hs, .ok cs, .ok ts =>
      ts.foldl tlsStep (cs.foldl cookieStep (hs.foldl headerStep m))
  | _, _, _ => m

/-- The checks of `headers.run` after the Strict-Transport-Security
check, in source order (`security_checks/headers.py` lines 47-162): one
conditional singleton per checked header. -/
def headersRest (h : List (String × String)) : List CheckResult :=
  (if (getH h "content-security-policy").isNone then
    [⟨"headers", "Content-Security-Policy", "high", "CSP header is missing.",
      "Define a Content-Security-Policy header to restrict sources of scripts, styles, images, etc., and mitigate XSS attacks.",
      [("observed", PyVal.pyNone)]⟩]
  else []) ++
  (if !truthy (getH h "x-frame-options") then
    [⟨"headers", "X-Frame-Options", "medium", "X-Frame-Options header is missing.",
      "Set X-Frame-Options to " ++ pyq "DENY" ++ " or " ++ pyq "SAMEORIGIN" ++
        " to protect against clickjacking.",
      [("observed", match getH h "x-frame-options" with
        | Option.none => PyVal.pyNone
        | Option.some v => PyVal.str v)]⟩]
  else []) ++
  (if (match getH h "x-content-type-options" with
      | Option.none => true
      | Option.some v => !(strLower v == "nosniff")) then
    [⟨"headers", "X-Content-Type-Options", "medium",
      "X-Content-Type-Options header is missing or not set to " ++ pyq "nosniff" ++ ".",
      "Set X-Content-Type-Options to " ++ pyq "nosniff" ++ " to prevent MIME-sniffing.",
      [("observed", match getH h "x-content-type-options" with
        | Option.none => PyVal.pyNone
        | Option.some v => PyVal.str v)]⟩]
  else []) ++
  (if !truthy (getH h "referrer-policy") then
    [⟨"headers", "Referrer-Policy", "low", "Referrer-Policy header is missing.",
      "Set a Referrer-Policy header (e.g. " ++ pyq "no-referrer" ++ ", " ++
        pyq "strict-origin-when-cross-origin" ++
        ") to control how much referrer information is sent.",
      [("observed", match getH h "referrer-policy" with
        | Option.none => PyVal.pyNone
        | Option.some v => PyVal.str v)]⟩]
  else []) ++
  (if !truthy (pyOr (getH h "permissions-policy") (getH h "feature-policy")) then
    [⟨"headers", "Permissions-Policy", "low",
      "Permissions-Policy (or legacy Feature-Policy) header is missing.",
      "Add a Permissions-Policy header to limit access to powerful browser features (camera, microphone, geolocation, etc.).",
      [("observed", match pyOr (getH h "permissions-policy") (getH h "feature-policy") with
        | Option.none => PyVal.pyNone
        | Option.some v => PyVal.str v)]⟩]
  else []) ++
  (if !truthy (getH h "cross-origin-opener-policy") then
    [⟨"headers", "Cross-Origin-Opener-Policy", "low",
      "Cross-Origin-Opener-Policy header is missing.",
      "Set Cross-Origin-Opener-Policy to " ++ pyq "same-origin" ++
        " where appropriate to isolate the browsing context and improve security.",
      [("observed", match getH h "cross-origin-opener-policy" with
        | Option.none => PyVal.pyNone
        | Option.some v => PyVal.str v)]⟩]
  else []) ++
  (if !truthy (getH h "cross-origin-embedder-policy") then
    [⟨"headers", "Cross-Origin-Embedder-Policy", "low",
      "Cross-Origin-Embedder-Policy header is missing.",
      "Set Cross-Origin-Embedder-Policy to " ++ pyq "require-corp" ++
        " or similar where appropriate to opt into cross-origin isolation.",
      [("observed", match getH h "cross-origin-embedder-policy" with
        | Option.none => PyVal.pyNone
        | Option.some v => PyVal.str v)]⟩]
  else [])

/-- The body of `headers.run` (`security_checks/headers.py`) as a pure
function of the fetched, lowercase-keyed response headers.  The Python
body appends at most one `CheckResult` per checked header, in source
order, so it is the concatenation of conditional singletons: the
Strict-Transport-Security check first, then the seven remaining header
checks (`headersRest`). -/
def headers_run (h : List (String × String)) : List CheckResult :=
  (if (getH h "strict-transport-security").isNone then
    [⟨"headers", "Strict-Transport-Security", "high", "HSTS header is missing.",
      "Add " ++ pyq "Strict-Transport-Security" ++
        " header to enforce HTTPS. Example: Strict-Transport-Security: max-age=63072000; includeSubDomains; preload",
      [("observed", PyVal.pyNone)]⟩]
  else []) ++ headersRest h

/-- The full `headers.run` including its fetch: `_fetch_headers` issues
`requests.get(url, timeout=10)` and `raise_for_status()`, and `run` has
no exception handler, so a fetch failure propagates to the caller;
embedded as `Except.map`: an error outcome of the fetch is returned as an
error of `run` itself. -/
def headers_run_net (fetch : Except String (List (String × String))) :
    Except String (List CheckResult) :=
  fetch.map headers_run

/-- The `TLSConfig` dataclass of `security_checks/tls.py`. -/
structure TLSConfig where
  protocolVersion : String
  cipherSuite : Option String
  certificateSubject : String
  certificateIssuer : String
  notBefore : String
  notAfter : String
deriving DecidableEq, Repr

/-- Outcome of `_get_tls_info` in `security_checks/tls.py`: the
connection attempt raises `OSError`/`ssl.SSLError`, or succeeds but the
peer presents no certificate (the function returns `None`), or yields a
`TLSConfig`. -/
inductive TlsOutcome where
  | connError (e : String)
  | noCert
  | conn (cfg : TLSConfig)
deriving DecidableEq, Repr

/-- The issuer substring tested by `tls.run` (a Python literal with an
apostrophe). -/
def letsEncryptLit : String := "let" ++ sQuote ++ "s encrypt"

/-- The body of `tls.run` (`security_checks/tls.py`) as a function of the
parsed host/port and the `_get_tls_info` outcome (URL parsing via
`urlparse` is left abstract in the embedding: `host` and `port` are the
values `_parse_host_port` returned). -/
def tls_run (host : String) (port : Nat) (o : TlsOutcome) : List CheckResult :=
  match o with
  | TlsOutcome.connError e =>
      [⟨"tls", "TLS Connection", "high",
        "Failed to establish TLS connection to " ++ host ++ ":" ++ toString port ++ ".",
        "Ensure the host is reachable over HTTPS and has a valid TLS configuration. Check firewall, certificate configuration, and supported protocols.",
        [("error", PyVal.str e)]⟩]
  | TlsOutcome.noCert =>
      [⟨"tls", "TLS Certificate", "high",
        "Could not retrieve TLS certificate from server.",
        "Ensure the server presents a valid TLS certificate and supports modern protocols like TLS 1.2+.",
        []⟩]
  | TlsOutcome.conn cfg =>
      (if cfg.protocolVersion ∈ ["SSLv2", "SSLv3", "TLSv1", "TLSv1.1"] then
        [⟨"tls", "TLS Protocol Version", "high",
          "Server uses weak or outdated protocol version: " ++ cfg.protocolVersion ++ ".",
          "Disable old protocols (SSLv2, SSLv3, TLS 1.0, TLS 1.1) and only allow TLS 1.2 or TLS 1.3 on the server.",
          [("protocol_version", PyVal.str cfg.protocolVersion)]⟩]
      else []) ++
      (if cfg.cipherSuite.isNone then
        [⟨"tls", "Cipher Suite", "medium",
          "Could not determine the cipher suite used.",
          "Ensure the server is configured with modern and secure cipher suites that prefer forward secrecy (e.g., ECDHE-based ciphers).",
          []⟩]
      else []) ++
      (if cfg.certificateSubject.isEmpty then
        [⟨"tls", "Certificate Subject", "medium",
          "TLS certificate subject (CN) appears to be empty.",
          "Use a properly issued certificate with a subject or SAN that matches the public hostname.",
          []⟩]
      else []) ++
      (if containsSub (strLower cfg.certificateIssuer) letsEncryptLit then
        [⟨"tls", "Certificate Issuer", "low",
          "Certificate issued by Let" ++ sQuote ++ "s Encrypt.",
          "Ensure automatic renewal is configured and monitored so certificates do not expire unexpectedly.",
          [("issuer", PyVal.str cfg.certificateIssuer)]⟩]
      else []) ++
      [⟨"tls", "Certificate Validity", "low",
        "TLS certificate validity period information.",
        "Ensure the certificate is not expired and plan renewals before the " ++ pyq "notAfter" ++ " date.",
        [("not_before", PyVal.str cfg.notBefore), ("not_after", PyVal.str cfg.notAfter)]⟩]

/-- Python `s.split(sep)` on character lists (every occurrence of the
non-empty separator splits), driven by a character-count fuel so that it
evaluates by kernel reduction. -/
def splitOnListFuel (sep : List Char) : Nat → List Char → List Char → List (List Char)
  | 0, acc, l => [acc.reverse ++ l]
  | _ + 1, acc, [] => [acc.reverse]
  | fuel + 1, acc, c :: t =>
    if sep.isPrefixOf (c :: t) && !sep.isEmpty then
      acc.reverse :: splitOnListFuel sep fuel [] ((c :: t).drop sep.length)
    else
      splitOnListFuel sep fuel (c :: acc) t

/-- Python `s.split(sep)` on strings. -/
def strSplitOn (s sep : String) : List String :=
  (splitOnListFuel sep.toList s.toList.length [] s.toList).map String.mk

/-- Python `s.strip()` (the repository strips ASCII whitespace). -/
def strStrip (s : String) : String :=
  String.mk (((s.toList.dropWhile Char.isWhitespace).reverse.dropWhile Char.isWhitespace).reverse)

/-- Python `s.split(sep, 1)[1]` for a one-character separator that occurs
in `s`: everything after the first occurrence. -/
def afterChar (s : String) (sep : Char) : String :=
  String.mk ((s.toList.dropWhile (fun c => c != sep)).drop 1)

/-- One parsed cookie of `_analyze_cookie_attributes`
(`security_checks/cookies.py`): the dict `{"name": .., "attributes": ..}`. -/
structure CookieInfo where
  name : String
  attributes : List (String × String)
deriving DecidableEq, Repr

/-- The `_parse_set_cookie_headers` function of `security_checks/cookies.py`
applied to the (lowercase-keyed) response headers. -/
def parse_set_cookie_headers (h : List (String × String)) : List String :=
  match getH h "set-cookie" with
  | Option.none => []
  | Option.some raw =>
      if raw.isEmpty then []
      else if containsSub raw ", " then strSplitOn raw ", "
      else [raw]

/-- The attribute fold inside `_analyze_cookie_attributes`: each `;`-part
after the first is inserted into the attribute dict, lowercased key,
value stripped, bare attributes mapped to the string `"true"`. -/
def cookieAttrFold (attrs : List (String × String)) (attr : String) :
    List (String × String) :=
  if containsSub attr "=" then
    updateMap attrs (strLower (takeUntilChar attr (Char.ofNat 61)))
      (strStrip (afterChar attr (Char.ofNat 61)))
  else
    updateMap attrs (strLower attr) "true"

/-- The `_analyze_cookie_attributes` function of
`security_checks/cookies.py`. -/
def analyze_cookie_attributes (headers : List String) : List CookieInfo :=
  headers.foldr
    (fun header acc =>
      let parts := (strSplitOn header ";").map strStrip
      match parts with
      | [] => acc
      | nameValue :: rest =>
          ⟨takeUntilChar nameValue (Char.ofNat 61), rest.foldl cookieAttrFold []⟩ :: acc)
    []

/-- Per-cookie result list of the main loop of `cookies.run`. -/
def cookieChecks (c : CookieInfo) : List CheckResult :=
  let attrs := c.attributes
  (if (getH attrs "secure").isNone then
    [⟨"cookies", "Cookie " ++ pyq c.name ++ " Secure flag", "high",
      "Cookie " ++ pyq c.name ++ " is missing the Secure attribute.",
      "Set the Secure flag on cookies that contain sensitive data or session information to ensure they are only sent over HTTPS.",
      [("cookie", PyVal.str c.name), ("attributes", PyVal.dict attrs)]⟩]
  else []) ++
  (if (getH attrs "httponly").isNone then
    [⟨"cookies", "Cookie " ++ pyq c.name ++ " HttpOnly flag", "high",
      "Cookie " ++ pyq c.name ++ " is missing the HttpOnly attribute.",
      "Set the HttpOnly flag on session and authentication cookies to mitigate the risk of client-side script access (e.g., XSS exfiltration).",
      [("cookie", PyVal.str c.name), ("attributes", PyVal.dict attrs)]⟩]
  else []) ++
  (if !truthy (getH attrs "samesite") then
    [⟨"cookies", "Cookie " ++ pyq c.name ++ " SameSite attribute", "medium",
      "Cookie " ++ pyq c.name ++ " is missing the SameSite attribute.",
      "Set the SameSite attribute to " ++ pyq "Lax" ++ " or " ++ pyq "Strict" ++
        " where possible to help mitigate CSRF attacks. If cross-site usage is required, use " ++
        pyq "None; Secure" ++ ".",
      [("cookie", PyVal.str c.name), ("attributes", PyVal.dict attrs)]⟩]
  else
    match getH attrs "samesite" with
    | Option.none => []
    | Option.some samesite =>
        if !(["lax", "strict", "none"].contains (strLower samesite)) then
          [⟨"cookies", "Cookie " ++ pyq c.name ++ " SameSite attribute", "medium",
            "Cookie " ++ pyq c.name ++ " SameSite attribute has a non-standard value: " ++
              pyq samesite ++ ".",
            "Use a valid SameSite value: " ++ pyq "Lax" ++ ", " ++ pyq "Strict" ++
              ", or " ++ pyq "None" ++ ". When using " ++ pyq "None" ++
              ", the cookie must also have the Secure attribute.",
            [("cookie", PyVal.str c.name), ("attributes", PyVal.dict attrs)]⟩]
        else if strLower samesite == "none" && (getH attrs "secure").isNone then
          [⟨"cookies", "Cookie " ++ pyq c.name ++ " SameSite=None without Secure", "medium",
            "Cookie " ++ pyq c.name ++ " has SameSite=None but is missing the Secure attribute.",
            "When using SameSite=None, the cookie must be marked Secure to comply with modern browser requirements and avoid being rejected.",
            [("cookie", PyVal.str c.name), ("attributes", PyVal.dict attrs)]⟩]
        else [])

/-- The body of `cookies.run` (`security_checks/cookies.py`) as a pure
function of the fetched, lowercase-keyed response headers. -/
def cookies_run (h : List (String × String)) : List CheckResult :=
  let setCookieHeaders := parse_set_cookie_headers h
  let cookiesInfo := analyze_cookie_attributes setCookieHeaders
  if cookiesInfo.isEmpty then
    [⟨"cookies", "No Cookies Set", "low",
      "No cookies were set by the application on the scanned URL.",
      "If the application uses sessions or authentication, ensure that cookies are configured securely (Secure, HttpOnly, SameSite).",
      [("set_cookie_headers", PyVal.strList setCookieHeaders)]⟩]
  else
    cookiesInfo.foldr (fun c acc => cookieChecks c ++ acc) []

/-- The full `cookies.run` including its fetch:
`_fetch_cookies_and_headers` issues `requests.get(url, timeout=10)` and
`raise_for_status()`, and `run` has no exception handler, so a fetch
failure propagates to the caller. -/
def cookies_run_net (fetch : Except String (List (String × String))) :
    Except String (List CheckResult) :=
  fetch.map cookies_run

/-- The result dict shape returned by the numbered check modules such as
`check16.py` (`check_name` / `compliance` / `remark` / `severity`). -/
structure CheckDict where
  checkName : String
  compliance : String
  remark : String
  severity : String
deriving DecidableEq, Repr

/-- The `run_check` function of `security_checks/check16.py` as a
function of the connection oracle: `connects name` is true when the
weak-protocol TLS connection attempt for `name` succeeds, false when it
raises one of the caught exceptions (on an unreachable host every attempt
raises, so the oracle is constantly false).  `sslv3Supported` embeds the
`hasattr(ssl, "PROTOCOL_SSLv3")` test (a `None` protocol is skipped). -/
def check16_run_check (sslv3Supported : Bool) (connects : String → Bool) :
    CheckDict :=
  let protos := ["SSLv2"] ++ (if sslv3Supported then ["SSLv3"] else []) ++
    ["TLSv1", "TLSv1.1"]
  let foundWeak := protos.filter connects
  if foundWeak.isEmpty then
    ⟨"Deprecated TLS/SSL Versions", "Y",
      "Compliant: Server correctly rejects insecure protocols (SSLv2, SSLv3, TLS 1.0/1.1). Only modern TLS supported. Y",
      "info"⟩
  else
    ⟨"Deprecated TLS/SSL Versions", "N",
      "NOT COMPLIANT: Server accepts deprecated and insecure protocols: " ++
        String.intercalate ", " foundWeak ++ ". Vulnerable to POODLE/BEAST attacks. N",
      "high"⟩

/-- The result dict shape returned by `check28.py`. -/
structure Check28Result where
  checkType : String
  name : String
  compliance : String
  severity : String
  description : String
  recommendation : String
  rawData : List (String × PyVal)
deriving DecidableEq, Repr

/-- Outcome of `dns.resolver.resolve(domain, CAA)` in `check28.py`:
an answer (the list of CAA records as strings), one of the three caught
no-record exceptions, or any other exception. -/
inductive DnsOutcome where
  | success (records : List String)
  | noAnswer
  | nxdomain
  | noNameservers
  | queryError (e : String)
deriving DecidableEq, Repr

/-- The `run_check` function of `security_checks/check28.py` as a
function of the DNS resolution outcome. -/
def check28_run_check (targetUrl : String) (o : DnsOutcome) : Check28Result :=
  let checkName := "DNS CAA Record Status"
  let domain := extractDomain targetUrl
  match o with
  | DnsOutcome.success caaRecords =>
      if !caaRecords.isEmpty then
        ⟨"dns_caa", checkName, "Y", "info",
          "Compliant: CAA record(s) found: " ++ String.intercalate " | " caaRecords ++ ".",
          "CAA records are correctly configured to restrict certificate issuance.",
          [("records", PyVal.strList caaRecords), ("domain", PyVal.str domain)]⟩
      else
        ⟨"dns_caa", checkName, "N", "high",
          "NOT COMPLIANT: No CAA record detected. Any Certificate Authority can issue a certificate for this domain.",
          "Configure DNS CAA records (RFC 8659) to specify authorized Certificate Authorities.",
          [("domain", PyVal.str domain)]⟩
  | DnsOutcome.noAnswer =>
      ⟨"dns_caa", checkName, "N", "high",
        "NOT COMPLIANT: CAA record is missing from DNS configuration.",
        "Add a CAA record to your DNS zone to prevent unauthorized certificate issuance.",
        [("domain", PyVal.str domain)]⟩
  | DnsOutcome.nxdomain =>
      ⟨"dns_caa", checkName, "N", "high",
        "NOT COMPLIANT: CAA record is missing from DNS configuration.",
        "Add a CAA record to your DNS zone to prevent unauthorized certificate issuance.",
        [("domain", PyVal.str domain)]⟩
  | DnsOutcome.noNameservers =>
      ⟨"dns_caa", checkName, "N", "high",
        "NOT COMPLIANT: CAA record is missing from DNS configuration.",
        "Add a CAA record to your DNS zone to prevent unauthorized certificate issuance.",
        [("domain", PyVal.str domain)]⟩
  | DnsOutcome.queryError e =>
      ⟨"dns_caa", checkName, "N", "high",
        "Error: DNS query failed (" ++ e ++ ").",
        "Ensure the domain is valid and the DNS server is reachable.",
        [("error", PyVal.str e)]⟩

/-- The columns of the `Scan` ORM model (`db/models/scan.py`) that the
lifecycle helpers read or write. -/
structure ScanRec where
  status : String
  createdAt : Nat
  startedAt : Option Nat
  finishedAt : Option Nat
  summary : Option String
deriving DecidableEq, Repr

/-- The status enum documented on the `status` column of the `Scan`
model (`db/models/scan.py` line 39) and in the lifecycle design. -/
def scanStatusValues : List String := ["pending", "running", "completed", "failed"]

/-- The `create_scan_for_target` function of `services/scan_service.py`
(status and timestamp effects on the new row). -/
def create_scan_for_target (now : Nat) : ScanRec :=
  ⟨"pending", now, Option.none, Option.none, Option.none⟩

/-- The `mark_scan_started` function of `services/scan_service.py`: it
assigns `status = "running"` and the start timestamp unconditionally (no
guard on the current status). -/
def mark_scan_started (s : ScanRec) (now : Nat) : ScanRec :=
  { s with status := "running", startedAt := Option.some now }

/-- The `mark_scan_completed` function of `services/scan_service.py`
(`summary` is only assigned when the argument is not `None`). -/
def mark_scan_completed (s : ScanRec) (now : Nat) (summary : Option String) :
    ScanRec :=
  let newSummary : Option String :=
    match summary with
    | Option.some x => Option.some x
    | Option.none => s.summary
  { s with status := "completed", finishedAt := Option.some now, summary := newSummary }

/-- The `mark_scan_failed` function of `services/scan_service.py`
(`summary` is only assigned when `error_message` is truthy). -/
def mark_scan_failed (s : ScanRec) (now : Nat) (errorMessage : Option String) :
    ScanRec :=
  let newSummary : Option String :=
    match errorMessage with
    | Option.some e => if e.isEmpty then s.summary else Option.some e
    | Option.none => s.summary
  { s with status := "failed", finishedAt := Option.some now, summary := newSummary }

/-- The successive values that `run_security_scan_task`
(`workers/tasks_scans.py` lines 90 and 108) assigns to `scan.status` on
its success path: first `"processing"`, then `"completed"`. -/
def run_security_scan_task_statusWrites : List String := ["processing", "completed"]

/-- The fixed candidate port set passed to `nmap` by
`run_security_scan_task` (`tasks_scans.py` line 99). -/
def scannedPorts : List Nat := [21, 22, 23, 25, 80, 443, 3389, 8000, 8080, 8443]

/-- The finding name written by `run_security_scan_task` for an open
port. -/
def portFindingName (p : Nat) : String := "Insecure Port Open: " ++ toString p

/-- The finding-generation loop of `run_security_scan_task`
(`tasks_scans.py` lines 101-106): every reported open TCP port outside
`[80, 443]` yields one `Finding` row. -/
def findingsFromOpenPorts (openPorts : List Nat) : List Finding :=
  (openPorts.filter (fun p => !(p == 80 || p == 443))).map
    (fun p => ⟨portFindingName p, "Port " ++ toString p ++ " is open."⟩)

/-- One bounded network operation issued by a probe: the module, the
call, its explicit timeout argument in seconds (`none` when the call
passes no timeout), and the number of in-probe retries of that same
operation after a timeout (no call site in the engine is wrapped in a
retry loop, so this is 0 throughout). -/
structure NetOp where
  module : String
  operation : String
  timeoutSec : Option Nat
  retries : Nat
deriving DecidableEq, Repr

/-- Every network call site of the probe engine with its explicit
timeout argument, read off the sources: `headers.py` line 17,
`cookies.py` line 19, `tls.py` lines 38-52, `check2.py` line 17,
`check3.py`-`check13.py` and `check22.py` (`requests.get(..., timeout=10)`),
`check14.py` line 22, `check15.py` line 24,
`check16.py`-`check21.py` and `check23.py`-`check27.py`
(`socket.create_connection(..., timeout=5)`), and `check28.py` line 17,
whose `dns.resolver.resolve(domain, "CAA")` passes no timeout argument. -/
def probeNetOps : List NetOp :=
  [⟨"headers", "requests.get", Option.some 10, 0⟩,
   ⟨"cookies", "requests.get", Option.some 10, 0⟩,
   ⟨"tls", "socket.create_connection", Option.some 5, 0⟩,
   ⟨"check2", "requests.head", Option.some 10, 0⟩,
   ⟨"check3", "requests.get", Option.some 10, 0⟩,
   ⟨"check4", "requests.get", Option.some 10, 0⟩,
   ⟨"check5", "requests.get", Option.some 10, 0⟩,
   ⟨"check6", "requests.get", Option.some 10, 0⟩,
   ⟨"check7", "requests.get", Option.some 10, 0⟩,
   ⟨"check8", "requests.get", Option.some 10, 0⟩,
   ⟨"check9", "requests.get", Option.some 10, 0⟩,
   ⟨"check10", "requests.get", Option.some 10, 0⟩,
   ⟨"check11", "requests.get", Option.some 10, 0⟩,
   ⟨"check12", "requests.get", Option.some 10, 0⟩,
   ⟨"check13", "requests.get", Option.some 10, 0⟩,
   ⟨"check14", "requests.request", Option.some 5, 0⟩,
   ⟨"check15", "requests.head", Option.some 5, 0⟩,
   ⟨"check16", "socket.create_connection", Option.some 5, 0⟩,
   ⟨"check17", "socket.create_connection", Option.some 5, 0⟩,
   ⟨"check18", "socket.create_connection", Option.some 5, 0⟩,
   ⟨"check19", "socket.create_connection", Option.some 5, 0⟩,
   ⟨"check20", "socket.create_connection", Option.some 5, 0⟩,
   ⟨"check21", "socket.create_connection", Option.some 5, 0⟩,
   ⟨"check22", "requests.get", Option.some 10, 0⟩,
   ⟨"check23", "socket.create_connection", Option.some 5, 0⟩,
   ⟨"check24", "socket.create_connection", Option.some 5, 0⟩,
   ⟨"check25", "socket.create_connection", Option.some 5, 0⟩,
   ⟨"check26", "socket.create_connection", Option.some 5, 0⟩,
   ⟨"check27", "socket.create_connection", Option.some 5, 0⟩,
   ⟨"check28", "dns.resolver.resolve", Option.none, 0⟩]

/-- Whether a network operation carries an explicit timeout between 5
and 10 seconds inclusive. -/
def timeoutOk (op : NetOp) : Bool :=
  match op.timeoutSec with
  | Option.some t => 5 ≤ t && t ≤ 10
  | Option.none => false

/-- The fixed key list "1".."28" of the compliance map. -/
def stdKeys : List String := (List.range 28).map (fun i => toString (i + 1))

/-- The cookie-mapping key that `evaluate_compliance` resolves for a
result (derived from the branch structure of `cookieStep`). -/
def cookieKey (r : CheckResult) : Option String :=
  if containsSub r.name "Secure" || containsSub r.name "HttpOnly" then some "11"
  else if containsSub r.name "SameSite" then some "12"
  else none

/-- The catalog IDs to which some probe result in the given inputs
resolves under the four mapping passes of `evaluate_compliance`; an ID
outside this list is one "to which no probe result maps". -/
def mappedIds (findings : List Finding)
    (hres cres tres : Except String (List CheckResult)) : List String :=
  (if findings.any (fun f => (portAction f).isSome) then ["1"] else []) ++
  (match hres, cres, tres with
   | .ok hs, .ok cs, .ok ts =>
       hs.filterMap (fun r => headerMapping r.name) ++
       cs.filterMap cookieKey ++
       ts.filterMap (fun r => tlsMapping r.name)
   | _, _, _ => [])

theorem lookup_updateMap_self {β : Type} (m : List (String × β)) (k : String)
    (e : β) : List.lookup k (updateMap m k e) = some e := by
  induction m with
  | nil => simp [updateMap, List.lookup]
  | cons a t ih =>
      by_cases hk : a.1 = k
      · rw [updateMap, if_pos (by exact beq_iff_eq.mpr hk)]
        simp [List.lookup]
      · rw [updateMap, if_neg (by simp [hk])]
        have hk3 : (k == a.1) = false := beq_eq_false_iff_ne.mpr (Ne.symm hk)
        simp [List.lookup, hk3, ih]

theorem lookup_updateMap_ne {β : Type} (m : List (String × β)) (k k2 : String)
    (e : β) (h : k2 ≠ k) :
    List.lookup k2 (updateMap m k e) = List.lookup k2 m := by
  have hne : (k2 == k) = false := beq_eq_false_iff_ne.mpr h
  induction m with
  | nil => simp [updateMap, List.lookup, hne]
  | cons a t ih =>
      by_cases hk : a.1 = k
      · rw [updateMap, if_pos (by exact beq_iff_eq.mpr hk)]
        have h2 : (k2 == a.1) = false := by rw [hk]; exact hne
        simp [List.lookup, hne, h2]
      · rw [updateMap, if_neg (by simp [hk])]
        by_cases h2 : k2 = a.1
        · simp [List.lookup, beq_iff_eq.mpr h2]
        · have h3 : (k2 == a.1) = false := beq_eq_false_iff_ne.mpr h2
          simp [List.lookup, h3, ih]

theorem updateMap_keys {β : Type} (m : List (String × β)) (k : String) (e : β)
    (h : (m.map Prod.fst).contains k = true) :
    (updateMap m k e).map Prod.fst = m.map Prod.fst := by
  induction m with
  | nil => simp at h
  | cons a t ih =>
      by_cases hk : a.1 = k
      · rw [updateMap, if_pos (by exact beq_iff_eq.mpr hk)]
        simp [hk]
      · rw [updateMap, if_neg (by simp [hk])]
        have h2 : ((t.map Prod.fst).contains k) = true := by
          simp only [List.map_cons, List.contains_cons] at h
          rcases Bool.or_eq_true_iff.mp h with h3 | h3
          · exact absurd (beq_iff_eq.mp h3).symm hk
          · exact h3
        simp [ih h2]

theorem updateMap_forall {β : Type} (P : β → Prop) (m : List (String × β))
    (k : String) (e : β) (hm : ∀ p ∈ m, P p.2) (he : P e) :
    ∀ p ∈ updateMap m k e, P p.2 := by
  induction m with
  | nil =>
      intro p hp
      simp [updateMap] at hp
      subst hp
      exact he
  | cons a t ih =>
      intro p hp
      rw [updateMap] at hp
      split at hp
      · rcases List.mem_cons.mp hp with h2 | h2
        · subst h2; exact he
        · exact hm p (List.mem_cons_of_mem a h2)
      · rcases List.mem_cons.mp hp with h2 | h2
        · rw [h2]; exact hm a (List.mem_cons_self a t)
        · exact ih (fun q hq => hm q (List.mem_cons_of_mem a hq)) p h2

theorem foldl_pres {γ α : Type} (step : γ → α → γ) (P : γ → Prop) :
    ∀ (l : List α) (m : γ), (∀ m2 a, a ∈ l → P m2 → P (step m2 a)) → P m →
      P (l.foldl step m) := by
  intro l
  induction l with
  | nil => intro m _ hm; exact hm
  | cons a t ih =>
      intro m hstep hm
      exact ih (step m a) (fun m2 b hb => hstep m2 b (List.mem_cons_of_mem a hb))
        (hstep m a (List.mem_cons_self a t) hm)

/-- Statuses admissible in a compliance-map entry. -/
def statusOk (e : Entry) : Prop := e.status = "Y" ∨ e.status = "N"

theorem portAction_status (f : Finding) (e : Entry) (h : portAction f = some e) :
    statusOk e := by
  unfold portAction at h
  simp only at h
  split at h
  · split at h
    · cases h; left; rfl
    · split at h
      · cases h
      · cases h; right; rfl
  · cases h

theorem lookup_portStep_ne (m : List (String × Entry)) (f : Finding)
    (k : String) (h : k ≠ "1") :
    List.lookup k (portStep m f) = List.lookup k m := by
  unfold portStep
  cases hp : portAction f with
  | none => rfl
  | some e => exact lookup_updateMap_ne m "1" k e h

theorem portStep_of_action_none (m : List (String × Entry)) (f : Finding)
    (h : portAction f = none) : portStep m f = m := by
  unfold portStep
  rw [h]

theorem headerMapping_mem (n : String) (i : String)
    (h : headerMapping n = some i) :
    i ∈ ["9", "10", "8", "7", "4", "5", "13"] := by
  unfold headerMapping at h
  repeat' split at h
  all_goals simp_all

theorem tlsMapping_mem (n : String) (i : String) (h : tlsMapping n = some i) :
    i ∈ ["16", "17", "26"] := by
  unfold tlsMapping at h
  repeat' split at h
  all_goals simp_all

theorem cookieKey_mem (r : CheckResult) (i : String) (h : cookieKey r = some i) :
    i ∈ ["11", "12"] := by
  unfold cookieKey at h
  repeat' split at h
  all_goals simp_all

theorem lookup_headerStep (m : List (String × Entry)) (r : CheckResult)
    (k : String) (h : ∀ i, headerMapping r.name = some i → i ≠ k) :
    List.lookup k (headerStep m r) = List.lookup k m := by
  unfold headerStep
  cases hm : headerMapping r.name with
  | none => rfl
  | some i => exact lookup_updateMap_ne m i k _ (Ne.symm (h i hm))

theorem cookieStep_eq_key (m : List (String × Entry)) (r : CheckResult) :
    cookieStep m r = (match cookieKey r with
      | some "11" => updateMap m "11"
          ⟨if r.severity ∈ ["high", "critical"] then "N" else "Y",
            "CRITICAL: " ++ r.description, r.severity⟩
      | some "12" => updateMap m "12"
          ⟨if r.severity ∈ ["medium", "high"] then "N" else "Y",
            "WARNING: " ++ r.description, r.severity⟩
      | _ => m) := by
  unfold cookieStep cookieKey
  by_cases c1 : (containsSub r.name "Secure" || containsSub r.name "HttpOnly") = true
  · rw [if_pos c1, if_pos c1]
    rfl
  · rw [if_neg c1, if_neg c1]
    by_cases c2 : containsSub r.name "SameSite" = true
    · rw [if_pos c2, if_pos c2]
      rfl
    · rw [if_neg c2, if_neg c2]

theorem lookup_cookieStep (m : List (String × Entry)) (r : CheckResult)
    (k : String) (h : ∀ i, cookieKey r = some i → i ≠ k) :
    List.lookup k (cookieStep m r) = List.lookup k m := by
  rw [cookieStep_eq_key]
  cases hc : cookieKey r with
  | none => rfl
  | some i =>
      have hi := cookieKey_mem r i hc
      simp only [List.mem_cons, List.mem_singleton] at hi
      rcases hi with hi | hi | hi
      · subst hi; exact lookup_updateMap_ne m "11" k _ (Ne.symm (h "11" hc))
      · subst hi; exact lookup_updateMap_ne m "12" k _ (Ne.symm (h "12" hc))
      · simp at hi

theorem lookup_tlsStep (m : List (String × Entry)) (r : CheckResult)
    (k : String) (h : ∀ i, tlsMapping r.name = some i → i ≠ k) :
    List.lookup k (tlsStep m r) = List.lookup k m := by
  unfold tlsStep
  cases hm : tlsMapping r.name with
  | none => rfl
  | some i => exact lookup_updateMap_ne m i k _ (Ne.symm (h i hm))

theorem hdrIds_in_std (i : String) (h : i ∈ ["9", "10", "8", "7", "4", "5", "13"]) :
    stdKeys.contains i = true := by
  fin_cases h <;> decide

theorem cookieIds_in_std (i : String) (h : i ∈ ["11", "12"]) :
    stdKeys.contains i = true := by
  fin_cases h <;> decide

theorem tlsIds_in_std (i : String) (h : i ∈ ["16", "17", "26"]) :
    stdKeys.contains i = true := by
  fin_cases h <;> decide

theorem portStep_keys (m : List (String × Entry)) (f : Finding)
    (h : m.map Prod.fst = stdKeys) : (portStep m f).map Prod.fst = stdKeys := by
  unfold portStep
  cases hp : portAction f with
  | none => exact h
  | some e =>
      rw [updateMap_keys m "1" e (by rw [h]; decide)]
      exact h

theorem headerStep_keys (m : List (String × Entry)) (r : CheckResult)
    (h : m.map Prod.fst = stdKeys) : (headerStep m r).map Prod.fst = stdKeys := by
  unfold headerStep
  cases hm : headerMapping r.name with
  | none => exact h
  | some i =>
      rw [updateMap_keys m i _ (by rw [h]; exact hdrIds_in_std i (headerMapping_mem r.name i hm))]
      exact h

theorem cookieStep_keys (m : List (String × Entry)) (r : CheckResult)
    (h : m.map Prod.fst = stdKeys) : (cookieStep m r).map Prod.fst = stdKeys := by
  rw [cookieStep_eq_key]
  cases hc : cookieKey r with
  | none => exact h
  | some i =>
      have hi := cookieKey_mem r i hc
      simp only [List.mem_cons, List.mem_singleton] at hi
      rcases hi with hi | hi | hi
      · subst hi
        exact (updateMap_keys m "11"
          ⟨if r.severity ∈ ["high", "critical"] then "N" else "Y",
            "CRITICAL: " ++ r.description, r.severity⟩ (by rw [h]; decide)).trans h
      · subst hi
        exact (updateMap_keys m "12"
          ⟨if r.severity ∈ ["medium", "high"] then "N" else "Y",
            "WARNING: " ++ r.description, r.severity⟩ (by rw [h]; decide)).trans h
      · simp at hi

theorem tlsStep_keys (m : List (String × Entry)) (r : CheckResult)
    (h : m.map Prod.fst = stdKeys) : (tlsStep m r).map Prod.fst = stdKeys := by
  unfold tlsStep
  cases hm : tlsMapping r.name with
  | none => exact h
  | some i =>
      rw [updateMap_keys m i _ (by rw [h]; exact tlsIds_in_std i (tlsMapping_mem r.name i hm))]
      exact h

theorem complianceInit_keys : complianceInit.map Prod.fst = stdKeys := by
  decide

theorem evaluate_compliance_keys (findings : List Finding)
    (hres cres tres : Except String (List CheckResult)) :
    (evaluate_compliance findings hres cres tres).map Prod.fst = stdKeys := by
  have hport : (findings.foldl portStep complianceInit).map Prod.fst = stdKeys :=
    foldl_pres portStep (fun m => m.map Prod.fst = stdKeys) findings complianceInit
      (fun m2 a _ hm => portStep_keys m2 a hm) complianceInit_keys
  cases hres with
  | error e => simpa [evaluate_compliance] using hport
  | ok hs =>
      cases cres with
      | error e => simpa [evaluate_compliance] using hport
      | ok cs =>
          cases tres with
          | error e => simpa [evaluate_compliance] using hport
          | ok ts =>
              show (ts.foldl tlsStep (cs.foldl cookieStep
                (hs.foldl headerStep (findings.foldl portStep complianceInit)))).map
                  Prod.fst = stdKeys
              apply foldl_pres tlsStep (fun m => m.map Prod.fst = stdKeys) ts _
                (fun m2 a _ hm => tlsStep_keys m2 a hm)
              apply foldl_pres cookieStep (fun m => m.map Prod.fst = stdKeys) cs _
                (fun m2 a _ hm => cookieStep_keys m2 a hm)
              apply foldl_pres headerStep (fun m => m.map Prod.fst = stdKeys) hs _
                (fun m2 a _ hm => headerStep_keys m2 a hm)
              exact hport

theorem portStep_status (m : List (String × Entry)) (f : Finding)
    (h : ∀ p ∈ m, statusOk p.2) : ∀ p ∈ portStep m f, statusOk p.2 := by
  unfold portStep
  cases hp : portAction f with
  | none => exact h
  | some e => exact updateMap_forall statusOk m "1" e h (portAction_status f e hp)

theorem headerStep_status (m : List (String × Entry)) (r : CheckResult)
    (h : ∀ p ∈ m, statusOk p.2) : ∀ p ∈ headerStep m r, statusOk p.2 := by
  unfold headerStep
  cases hm : headerMapping r.name with
  | none => exact h
  | some i =>
      apply updateMap_forall statusOk m i _ h
      split
      · right; rfl
      · left; rfl

theorem cookieStep_status (m : List (String × Entry)) (r : CheckResult)
    (h : ∀ p ∈ m, statusOk p.2) : ∀ p ∈ cookieStep m r, statusOk p.2 := by
  rw [cookieStep_eq_key]
  cases hc : cookieKey r with
  | none => exact h
  | some i =>
      have hi := cookieKey_mem r i hc
      simp only [List.mem_cons, List.mem_singleton] at hi
      rcases hi with hi | hi | hi
      · subst hi
        exact updateMap_forall statusOk m "11"
          ⟨if r.severity ∈ ["high", "critical"] then "N" else "Y",
            "CRITICAL: " ++ r.description, r.severity⟩ h
          (by unfold statusOk; split; · right; rfl
              · left; rfl)
      · subst hi
        exact updateMap_forall statusOk m "12"
          ⟨if r.severity ∈ ["medium", "high"] then "N" else "Y",
            "WARNING: " ++ r.description, r.severity⟩ h
          (by unfold statusOk; split; · right; rfl
              · left; rfl)
      · simp at hi

theorem tlsStep_status (m : List (String × Entry)) (r : CheckResult)
    (h : ∀ p ∈ m, statusOk p.2) : ∀ p ∈ tlsStep m r, statusOk p.2 := by
  unfold tlsStep
  cases hm : tlsMapping r.name with
  | none => exact h
  | some i =>
      apply updateMap_forall statusOk m i _ h
      unfold statusOk
      split
      · right; rfl
      · left; rfl

theorem mem_complianceInit_val (p : String × Entry) (hp : p ∈ complianceInit) :
    p.2 = defaultEntry := by
  unfold complianceInit at hp
  obtain ⟨i, hi, h2⟩ := List.mem_map.mp hp
  rw [← h2]

theorem complianceInit_status : ∀ p ∈ complianceInit, statusOk p.2 := by
  intro p hp
  rw [mem_complianceInit_val p hp]
  exact Or.inl rfl

theorem evaluate_compliance_status (findings : List Finding)
    (hres cres tres : Except String (List CheckResult)) :
    ∀ p ∈ evaluate_compliance findings hres cres tres, statusOk p.2 := by
  have hport : ∀ p ∈ findings.foldl portStep complianceInit, statusOk p.2 :=
    foldl_pres portStep (fun m => ∀ p ∈ m, statusOk p.2) findings complianceInit
      (fun m2 a _ hm => portStep_status m2 a hm) complianceInit_status
  cases hres with
  | error e => simpa [evaluate_compliance] using hport
  | ok hs =>
      cases cres with
      | error e => simpa [evaluate_compliance] using hport
      | ok cs =>
          cases tres with
          | error e => simpa [evaluate_compliance] using hport
          | ok ts =>
              show ∀ p ∈ ts.foldl tlsStep (cs.foldl cookieStep
                (hs.foldl headerStep (findings.foldl portStep complianceInit))), statusOk p.2
              apply foldl_pres tlsStep (fun m => ∀ p ∈ m, statusOk p.2) ts _
                (fun m2 a _ hm => tlsStep_status m2 a hm)
              apply foldl_pres cookieStep (fun m => ∀ p ∈ m, statusOk p.2) cs _
                (fun m2 a _ hm => cookieStep_status m2 a hm)
              apply foldl_pres headerStep (fun m => ∀ p ∈ m, statusOk p.2) hs _
                (fun m2 a _ hm => headerStep_status m2 a hm)
              exact hport

theorem lookup_complianceInit_default :
    ∀ id ∈ stdKeys, List.lookup id complianceInit = some defaultEntry := by
  decide

theorem lookup_portFold (findings : List Finding) (id : String)
    (hinit : List.lookup id complianceInit = some defaultEntry)
    (h1 : (findings.any (fun f => (portAction f).isSome)) = true → id ≠ "1") :
    List.lookup id (findings.foldl portStep complianceInit) = some defaultEntry := by
  apply foldl_pres portStep
    (fun m => List.lookup id m = some defaultEntry) findings complianceInit _ hinit
  intro m2 f hf hm
  cases hp : portAction f with
  | none => rw [portStep_of_action_none m2 f hp]; exact hm
  | some e =>
      have hany : (findings.any (fun f2 => (portAction f2).isSome)) = true :=
        List.any_eq_true.mpr ⟨f, hf, by rw [hp]; rfl⟩
      rw [lookup_portStep_ne m2 f id (h1 hany)]
      exact hm

theorem evaluate_compliance_unmapped (findings : List Finding)
    (hres cres tres : Except String (List CheckResult)) (id : String)
    (hstd : id ∈ stdKeys) (hun : id ∉ mappedIds findings hres cres tres) :
    List.lookup id (evaluate_compliance findings hres cres tres) =
      some defaultEntry := by
  have hinit := lookup_complianceInit_default id hstd
  have hone : (findings.any (fun f => (portAction f).isSome)) = true → id ≠ "1" := by
    intro hany heq
    apply hun
    unfold mappedIds
    rw [hany]
    subst heq
    simp
  have hport := lookup_portFold findings id hinit hone
  cases hres with
  | error e => simpa [evaluate_compliance] using hport
  | ok hs =>
      cases cres with
      | error e => simpa [evaluate_compliance] using hport
      | ok cs =>
          cases tres with
          | error e => simpa [evaluate_compliance] using hport
          | ok ts =>
              simp only [mappedIds, List.mem_append, List.mem_ite_nil_right] at hun
              push_neg at hun
              show List.lookup id (ts.foldl tlsStep (cs.foldl cookieStep
                (hs.foldl headerStep (findings.foldl portStep complianceInit)))) =
                some defaultEntry
              apply foldl_pres tlsStep
                (fun m => List.lookup id m = some defaultEntry) ts
              · intro m2 r hr hm
                rw [lookup_tlsStep m2 r id]
                · exact hm
                · intro i hi heq
                  subst heq
                  exact hun.2.2 (List.mem_filterMap.mpr ⟨r, hr, hi⟩)
              · apply foldl_pres cookieStep
                  (fun m => List.lookup id m = some defaultEntry) cs
                · intro m2 r hr hm
                  rw [lookup_cookieStep m2 r id]
                  · exact hm
                  · intro i hi heq
                    subst heq
                    exact hun.2.1.2 (List.mem_filterMap.mpr ⟨r, hr, hi⟩)
                · apply foldl_pres headerStep
                    (fun m => List.lookup id m = some defaultEntry) hs
                  · intro m2 r hr hm
                    rw [lookup_headerStep m2 r id]
                    · exact hm
                    · intro i hi heq
                      subst heq
                      exact hun.2.1.1 (List.mem_filterMap.mpr ⟨r, hr, hi⟩)
                  · exact hport

/-- The complete set of `name` values that `tls.run` can put on a
result. -/
def tlsRunNames : List String :=
  ["TLS Connection", "TLS Certificate", "TLS Protocol Version", "Cipher Suite",
   "Certificate Subject", "Certificate Issuer", "Certificate Validity"]

theorem mem_cond_singleton {α : Type} {c : Prop} [Decidable c] {x r : α}
    (h : r ∈ (if c then [x] else [])) : r = x := by
  split at h
  · simpa using h
  · simp at h

theorem tls_run_names (host : String) (port : Nat) (o : TlsOutcome)
    (r : CheckResult) (h : r ∈ tls_run host port o) : r.name ∈ tlsRunNames := by
  cases o with
  | connError e =>
      simp only [tls_run, List.mem_singleton] at h
      subst h
      show "TLS Connection" ∈ tlsRunNames
      decide
  | noCert =>
      simp only [tls_run, List.mem_singleton] at h
      subst h
      show "TLS Certificate" ∈ tlsRunNames
      decide
  | conn cfg =>
      simp only [tls_run, List.mem_append, List.mem_singleton] at h
      rcases h with ((((h | h) | h) | h) | h)
      · rw [mem_cond_singleton h]
        show "TLS Protocol Version" ∈ tlsRunNames
        decide
      · rw [mem_cond_singleton h]
        show "Cipher Suite" ∈ tlsRunNames
        decide
      · rw [mem_cond_singleton h]
        show "Certificate Subject" ∈ tlsRunNames
        decide
      · rw [mem_cond_singleton h]
        show "Certificate Issuer" ∈ tlsRunNames
        decide
      · subst h
        show "Certificate Validity" ∈ tlsRunNames
        decide

theorem tlsMapping_of_run_name (n : String) (h : n ∈ tlsRunNames) :
    tlsMapping n = none := by
  fin_cases h <;> decide

theorem findSome?_append {α β : Type} (l1 l2 : List α) (f : α → Option β) :
    (l1 ++ l2).findSome? f =
      (match l1.findSome? f with
       | some b => some b
       | none => l2.findSome? f) := by
  induction l1 with
  | nil => simp [List.findSome?]
  | cons a t ih =>
      simp only [List.cons_append, List.findSome?]
      cases f a with
      | none => simpa using ih
      | some b => rfl

theorem lookup_one_portFold (l : List Finding) :
    ∀ m : List (String × Entry),
      List.lookup "1" (l.foldl portStep m) =
        (match l.reverse.findSome? portAction with
         | some e => some e
         | none => List.lookup "1" m) := by
  induction l with
  | nil => intro m; simp [List.findSome?]
  | cons a t ih =>
      intro m
      rw [List.foldl_cons, ih (portStep m a)]
      rw [List.reverse_cons, findSome?_append]
      cases ht : t.reverse.findSome? portAction with
      | some e => rfl
      | none =>
          simp only
          unfold portStep
          cases hp : portAction a with
          | some e =>
              simp only [List.findSome?, hp]
              exact lookup_updateMap_self m "1" e
          | none =>
              simp only [List.findSome?, hp]

theorem tlsStep_of_mapping_none (m : List (String × Entry)) (r : CheckResult)
    (h : tlsMapping r.name = none) : tlsStep m r = m := by
  unfold tlsStep
  rw [h]

theorem lookup_one_evaluate (findings : List Finding)
    (hres cres tres : Except String (List CheckResult)) :
    List.lookup "1" (evaluate_compliance findings hres cres tres) =
      some ((findings.reverse.findSome? portAction).getD defaultEntry) := by
  have hport : List.lookup "1" (findings.foldl portStep complianceInit) =
      some ((findings.reverse.findSome? portAction).getD defaultEntry) := by
    rw [lookup_one_portFold findings complianceInit]
    cases findings.reverse.findSome? portAction with
    | some e => rfl
    | none => decide
  cases hres with
  | error e => simpa [evaluate_compliance] using hport
  | ok hs =>
      cases cres with
      | error e => simpa [evaluate_compliance] using hport
      | ok cs =>
          cases tres with
          | error e => simpa [evaluate_compliance] using hport
          | ok ts =>
              show List.lookup "1" (ts.foldl tlsStep (cs.foldl cookieStep
                (hs.foldl headerStep (findings.foldl portStep complianceInit)))) = _
              apply foldl_pres tlsStep (fun m => List.lookup "1" m = _) ts
              · intro m2 r _ hm
                rw [lookup_tlsStep m2 r "1"
                  (fun i hi heq => absurd (heq ▸ tlsMapping_mem r.name i hi) (by decide))]
                exact hm
              · apply foldl_pres cookieStep (fun m => List.lookup "1" m = _) cs
                · intro m2 r _ hm
                  rw [lookup_cookieStep m2 r "1"
                    (fun i hi heq => absurd (heq ▸ cookieKey_mem r i hi) (by decide))]
                  exact hm
                · apply foldl_pres headerStep (fun m => List.lookup "1" m = _) hs
                  · intro m2 r _ hm
                    rw [lookup_headerStep m2 r "1"
                      (fun i hi heq => absurd (heq ▸ headerMapping_mem r.name i hi) (by decide))]
                    exact hm
                  · exact hport

theorem lookup_evaluate_tlsRun (findings : List Finding)
    (hres cres : Except String (List CheckResult)) (host : String) (port : Nat)
    (o : TlsOutcome) (id : String)
    (hinit : List.lookup id complianceInit = some defaultEntry)
    (h1 : id ≠ "1") (h7 : id ∉ ["9", "10", "8", "7", "4", "5", "13"])
    (h11 : id ∉ ["11", "12"]) :
    List.lookup id
      (evaluate_compliance findings hres cres (.ok (tls_run host port o))) =
      some defaultEntry := by
  have hport := lookup_portFold findings id hinit (fun _ => h1)
  cases hres with
  | error e => simpa [evaluate_compliance] using hport
  | ok hs =>
      cases cres with
      | error e => simpa [evaluate_compliance] using hport
      | ok cs =>
          show List.lookup id ((tls_run host port o).foldl tlsStep
            (cs.foldl cookieStep (hs.foldl headerStep
              (findings.foldl portStep complianceInit)))) = some defaultEntry
          apply foldl_pres tlsStep
            (fun m => List.lookup id m = some defaultEntry) (tls_run host port o)
          · intro m2 r hr hm
            rw [tlsStep_of_mapping_none m2 r
              (tlsMapping_of_run_name r.name (tls_run_names host port o r hr))]
            exact hm
          · apply foldl_pres cookieStep
              (fun m => List.lookup id m = some defaultEntry) cs
            · intro m2 r _ hm
              rw [lookup_cookieStep m2 r id
                (fun i hi heq => absurd (heq ▸ cookieKey_mem r i hi) (by simpa [heq] using h11))]
              exact hm
            · apply foldl_pres headerStep
                (fun m => List.lookup id m = some defaultEntry) hs
              · intro m2 r _ hm
                rw [lookup_headerStep m2 r id
                  (fun i hi heq => absurd (heq ▸ headerMapping_mem r.name i hi) (by simpa [heq] using h7))]
                exact hm
              · exact hport

/-- The names the seven non-HSTS header checks can put on a result. -/
def headersRestNames : List String :=
  ["Content-Security-Policy", "X-Frame-Options", "X-Content-Type-Options",
   "Referrer-Policy", "Permissions-Policy", "Cross-Origin-Opener-Policy",
   "Cross-Origin-Embedder-Policy"]

theorem headersRest_names (h : List (String × String)) (r : CheckResult)
    (hr : r ∈ headersRest h) : r.name ∈ headersRestNames := by
  unfold headersRest at hr
  simp only [List.mem_append] at hr
  rcases hr with ((((((hr | hr) | hr) | hr) | hr) | hr) | hr)
  · rw [mem_cond_singleton hr]
    show "Content-Security-Policy" ∈ headersRestNames
    decide
  · rw [mem_cond_singleton hr]
    show "X-Frame-Options" ∈ headersRestNames
    decide
  · rw [mem_cond_singleton hr]
    show "X-Content-Type-Options" ∈ headersRestNames
    decide
  · rw [mem_cond_singleton hr]
    show "Referrer-Policy" ∈ headersRestNames
    decide
  · rw [mem_cond_singleton hr]
    show "Permissions-Policy" ∈ headersRestNames
    decide
  · rw [mem_cond_singleton hr]
    show "Cross-Origin-Opener-Policy" ∈ headersRestNames
    decide
  · rw [mem_cond_singleton hr]
    show "Cross-Origin-Embedder-Policy" ∈ headersRestNames
    decide

theorem headersRest_no_nine : ∀ n ∈ headersRestNames, headerMapping n ≠ some "9" := by
  decide

theorem lookup_nine_hsts_missing (hdrs : List (String × String))
    (hh : getH hdrs "strict-transport-security" = none) :
    List.lookup "9"
      (evaluate_compliance [] (.ok (headers_run hdrs)) (.ok []) (.ok [])) =
      some ⟨"N", "ERROR: HSTS header is missing.", "high"⟩ := by
  show List.lookup "9" ((headers_run hdrs).foldl headerStep complianceInit) = _
  unfold headers_run
  rw [hh]
  simp only [Option.isNone_none, if_true]
  rw [List.foldl_append]
  apply foldl_pres headerStep
    (fun m => List.lookup "9" m = some ⟨"N", "ERROR: HSTS header is missing.", "high"⟩)
  · intro m2 r hr hm
    rw [lookup_headerStep m2 r "9"
      (fun i hi heq =>
        headersRest_no_nine r.name (headersRest_names hdrs r hr) (heq ▸ hi))]
    exact hm
  · decide

/-- C2 counterexample: the claim fails in two ways at concrete inputs.
Against an unreachable host the headers probe propagates the fetch
exception to its caller instead of returning a result, and
`check16.run_check` (whose connection oracle is constantly false because
every connection attempt raises) returns compliance "Y", not a
non-compliant result. -/
theorem C2_counterexample :
    headers_run_net (.error "connection refused") = .error "connection refused" ∧
    (check16_run_check true (fun _ => false)).compliance = "Y" ∧
    (check16_run_check true (fun _ => false)).compliance ≠ "N" := by
  exact ⟨rfl, rfl, by decide⟩

/-- C2 amended: among the engine probes, `tls.run`, `check16.run_check`
and `check28.run_check` never raise against an unreachable host, but the
failure result is not always non-compliant: `tls.run` returns one
high-severity "TLS Connection" failure result and `check28.run_check`
returns compliance "N" with severity "high", while `check16.run_check`
returns compliance "Y" (it treats connection failure as rejection of
weak protocols); `headers.run` and `cookies.run` have no exception
handler and propagate the network error to their caller. -/
theorem C2_probe_error_behavior :
    (∀ e, headers_run_net (.error e) = .error e) ∧
    (∀ e, cookies_run_net (.error e) = .error e) ∧
    (∀ host port e,
      (tls_run host port (TlsOutcome.connError e)).map (fun r => r.severity) = ["high"] ∧
      (tls_run host port (TlsOutcome.connError e)).map (fun r => r.name) = ["TLS Connection"]) ∧
    (∀ b, (check16_run_check b (fun _ => false)).compliance = "Y") ∧
    (∀ url e, (check28_run_check url (DnsOutcome.queryError e)).compliance = "N" ∧
      (check28_run_check url (DnsOutcome.queryError e)).severity = "high") := by
  refine ⟨fun e => rfl, fun e => rfl, fun host port e => ⟨rfl, rfl⟩, ?_, fun url e => ⟨rfl, rfl⟩⟩
  intro b
  cases b <;> rfl

/-- C3 counterexample: two port findings resolving to item 1, the
critical-tier one (port 21) processed before the warning-tier one
(port 8080); the final entry has severity "warning", not "critical" as
worst-severity-wins would require. -/
theorem C3_counterexample :
    (List.lookup "1" (evaluate_compliance
      [⟨"Insecure Port Open: 21", "Port 21 is open."⟩,
       ⟨"Insecure Port Open: 8080", "Port 8080 is open."⟩]
      (.ok []) (.ok []) (.ok []))).map (fun e => e.severity) = some "warning" ∧
    ("warning" : String) ≠ "critical" := by
  exact ⟨by decide, by decide⟩

/-- C3 amended: on conflict the mapper applies last-write-wins, not
worst-severity-wins: the entry for item 1 is that of the most recently
processed port finding, so critical-then-warning ends warning and
warning-then-critical ends critical. -/
theorem C3_last_write_wins :
    List.lookup "1" (evaluate_compliance
      [⟨"Insecure Port Open: 21", "Port 21 is open."⟩,
       ⟨"Insecure Port Open: 8080", "Port 8080 is open."⟩]
      (.ok []) (.ok []) (.ok [])) =
      some ⟨"Y", "WARNING: Insecure Port Open: 8080 detected. Alternative web ports are open but acceptable.", "warning"⟩ ∧
    List.lookup "1" (evaluate_compliance
      [⟨"Insecure Port Open: 8080", "Port 8080 is open."⟩,
       ⟨"Insecure Port Open: 21", "Port 21 is open."⟩]
      (.ok []) (.ok []) (.ok [])) =
      some ⟨"N", "CRITICAL: Insecure Port Open: 21 exposed. Non-standard service port detected.", "critical"⟩ := by
  exact ⟨by decide, by decide⟩

/-- C4 counterexample: the two finding lists are permutations of each
other, yet evaluate_compliance maps them to different compliance maps
(item 1 ends warning in one order and critical in the other), so the
mapper is not order-independent. -/
theorem C4_counterexample :
    List.Perm
      [(⟨"Insecure Port Open: 21", "Port 21 is open."⟩ : Finding),
       ⟨"Insecure Port Open: 8080", "Port 8080 is open."⟩]
      [⟨"Insecure Port Open: 8080", "Port 8080 is open."⟩,
       ⟨"Insecure Port Open: 21", "Port 21 is open."⟩] ∧
    evaluate_compliance
      [⟨"Insecure Port Open: 21", "Port 21 is open."⟩,
       ⟨"Insecure Port Open: 8080", "Port 8080 is open."⟩]
      (.ok []) (.ok []) (.ok []) ≠
    evaluate_compliance
      [⟨"Insecure Port Open: 8080", "Port 8080 is open."⟩,
       ⟨"Insecure Port Open: 21", "Port 21 is open."⟩]
      (.ok []) (.ok []) (.ok []) := by
  constructor
  · exact List.Perm.swap _ _ _
  · decide

/-- C4 amended: evaluate_compliance is a pure, deterministic function of
the finding list and the three probe outcomes (running it twice on the
same inputs trivially yields the same map), but it is order-dependent:
the port item entry equals that of the LAST finding in processing order
that the port mapping accepts (later results overwrite earlier ones), so
a permutation of the list can change the output. -/
theorem C4_deterministic_last_write (findings : List Finding)
    (hres cres tres : Except String (List CheckResult)) :
    List.lookup "1" (evaluate_compliance findings hres cres tres) =
      some ((findings.reverse.findSome? portAction).getD defaultEntry) :=
  lookup_one_evaluate findings hres cres tres

/-- C7 counterexample: mark_scan_started re-starts a completed scan
(changing it instead of leaving it unchanged), and the worker task writes
the status "processing", which is outside the documented four-value
enum. -/
theorem C7_counterexample :
    mark_scan_started ⟨"completed", 0, some 1, some 2, some "done"⟩ 3 ≠
      ⟨"completed", 0, some 1, some 2, some "done"⟩ ∧
    (mark_scan_started ⟨"completed", 0, some 1, some 2, some "done"⟩ 3).status = "running" ∧
    "processing" ∈ run_security_scan_task_statusWrites ∧
    "processing" ∉ scanStatusValues := by
  exact ⟨by decide, rfl, by decide, by decide⟩

/-- C7 amended: the lifecycle helpers are unguarded setters: from any
current status, mark_scan_started sets "running", mark_scan_completed
sets "completed" and mark_scan_failed sets "failed" (so no transition is
blocked and terminal states are not immutable); scans are created
"pending", and the worker task itself bypasses the helpers, writing
"processing" and then "completed". -/
theorem C7_unguarded_transitions :
    (∀ s now, (mark_scan_started s now).status = "running") ∧
    (∀ s now summ, (mark_scan_completed s now summ).status = "completed") ∧
    (∀ s now err, (mark_scan_failed s now err).status = "failed") ∧
    (∀ now, (create_scan_for_target now).status = "pending") ∧
    run_security_scan_task_statusWrites = ["processing", "completed"] := by
  exact ⟨fun s now => rfl, fun s now summ => rfl, fun s now err => rfl,
    fun now => rfl, rfl⟩

/-- C9: the DNS CAA probe returns compliance "Y" whenever at least one
CAA record is resolved, and compliance "N" with severity "high" when the
answer is empty or the resolution ends in NoAnswer, NXDOMAIN or
NoNameservers. -/
theorem C9_caa_probe (url : String) :
    (∀ recs, recs ≠ [] →
      (check28_run_check url (DnsOutcome.success recs)).compliance = "Y") ∧
    ((check28_run_check url (DnsOutcome.success [])).compliance = "N" ∧
      (check28_run_check url (DnsOutcome.success [])).severity = "high") ∧
    ((check28_run_check url DnsOutcome.noAnswer).compliance = "N" ∧
      (check28_run_check url DnsOutcome.noAnswer).severity = "high") ∧
    ((check28_run_check url DnsOutcome.nxdomain).compliance = "N" ∧
      (check28_run_check url DnsOutcome.nxdomain).severity = "high") ∧
    ((check28_run_check url DnsOutcome.noNameservers).compliance = "N" ∧
      (check28_run_check url DnsOutcome.noNameservers).severity = "high") := by
  refine ⟨?_, ⟨rfl, rfl⟩, ⟨rfl, rfl⟩, ⟨rfl, rfl⟩, ⟨rfl, rfl⟩⟩
  intro recs hr
  cases recs with
  | nil => exact absurd rfl hr
  | cons a t => rfl

/-- C9 witness: a concrete CAA answer yields compliance "Y". -/
theorem C9_caa_probe_witness :
    (check28_run_check "https://example.com"
      (DnsOutcome.success ["0 issue letsencrypt.org"])).compliance = "Y" :=
  (C9_caa_probe "https://example.com").1 ["0 issue letsencrypt.org"] (by decide)

/-- C10 counterexample: the DNS resolution of check28 is issued with no
explicit timeout argument, so not every probe network operation carries
an explicit 5-10s timeout. -/
theorem C10_counterexample :
    (⟨"check28", "dns.resolver.resolve", Option.none, 0⟩ : NetOp) ∈ probeNetOps ∧
    timeoutOk ⟨"check28", "dns.resolver.resolve", Option.none, 0⟩ = false ∧
    probeNetOps.all timeoutOk = false := by
  exact ⟨by decide, rfl, by decide⟩

/-- C10 amended: no probe call site retries an operation after a
timeout, and every probe network operation except the check28 DNS
resolution (which passes no timeout argument and falls back to the
resolver default) carries an explicit timeout between 5 and 10 seconds
inclusive. -/
theorem C10_bounded_timeouts :
    ∀ op ∈ probeNetOps, op.retries = 0 ∧
      (op.module ≠ "check28" → timeoutOk op = true) := by
  decide

/-- C10 witness: the headers probe request carries an explicit in-range
timeout and no retry. -/
theorem C10_bounded_timeouts_witness :
    (⟨"headers", "requests.get", Option.some 10, 0⟩ : NetOp).retries = 0 ∧
    timeoutOk ⟨"headers", "requests.get", Option.some 10, 0⟩ = true := by
  have h := C10_bounded_timeouts ⟨"headers", "requests.get", Option.some 10, 0⟩ (by decide)
  exact ⟨h.1, h.2 (by decide)⟩

/-- C1: for every finding list and every outcome of the three probe
calls (including failure of any of them), the compliance map returned by
evaluate_compliance has exactly 28 entries, keyed "1".."28" in order;
every entry status is "Y" or "N"; and every ID to which no probe result
maps keeps the default entry (status "Y", severity "info", remark
"Compliant."). -/
theorem C1_matrix_shape (findings : List Finding)
    (hres cres tres : Except String (List CheckResult)) :
    (evaluate_compliance findings hres cres tres).length = 28 ∧
    (evaluate_compliance findings hres cres tres).map Prod.fst = stdKeys ∧
    (∀ p ∈ evaluate_compliance findings hres cres tres,
      p.2.status = "Y" ∨ p.2.status = "N") ∧
    (∀ id, id ∈ stdKeys → id ∉ mappedIds findings hres cres tres →
      List.lookup id (evaluate_compliance findings hres cres tres) =
        some defaultEntry) := by
  have hk := evaluate_compliance_keys findings hres cres tres
  refine ⟨?_, hk,
    fun p hp => evaluate_compliance_status findings hres cres tres p hp,
    fun id h1 h2 => evaluate_compliance_unmapped findings hres cres tres id h1 h2⟩
  have hlen : ((evaluate_compliance findings hres cres tres).map Prod.fst).length =
      stdKeys.length := by rw [hk]
  rw [List.length_map] at hlen
  rw [hlen]
  decide

/-- C1 witness: with one port finding and all three probe calls failing,
the matrix still has its shape and item 28 keeps the default entry. -/
theorem C1_matrix_shape_witness :
    List.lookup "28" (evaluate_compliance
      [⟨"Insecure Port Open: 22", "Port 22 is open."⟩]
      (.error "connection refused") (.error "connection refused")
      (.error "connection refused")) = some defaultEntry := by
  have h := C1_matrix_shape [⟨"Insecure Port Open: 22", "Port 22 is open."⟩]
    (.error "connection refused") (.error "connection refused")
    (.error "connection refused")
  exact h.2.2.2 "28" (by decide) (by decide)

/-- C5: every result tls.run can return carries one of seven names, the
TLS mapping table recognizes none of them, and consequently the matrix
items 16, 17 and 26 keep the compliant default for every finding list,
every headers/cookies outcome and every TLS outcome. -/
theorem C5_tls_items_stay_default :
    (∀ host port o r, r ∈ tls_run host port o → r.name ∈ tlsRunNames) ∧
    (∀ n ∈ tlsRunNames, tlsMapping n = none) ∧
    (∀ id ∈ ["16", "17", "26"],
      ∀ findings hres cres host port o,
        List.lookup id (evaluate_compliance findings hres cres
          (.ok (tls_run host port o))) = some defaultEntry) := by
  refine ⟨tls_run_names, by decide, ?_⟩
  intro id hid findings hres cres host port o
  fin_cases hid
  · exact lookup_evaluate_tlsRun findings hres cres host port o "16"
      (by decide) (by decide) (by decide) (by decide)
  · exact lookup_evaluate_tlsRun findings hres cres host port o "17"
      (by decide) (by decide) (by decide) (by decide)
  · exact lookup_evaluate_tlsRun findings hres cres host port o "26"
      (by decide) (by decide) (by decide) (by decide)

/-- C5 witness: item 16 keeps the default entry on a concrete scan whose
TLS probe failed to connect. -/
theorem C5_tls_items_stay_default_witness :
    List.lookup "16" (evaluate_compliance [] (.ok []) (.ok [])
      (.ok (tls_run "example.com" 443 (TlsOutcome.connError "timeout")))) =
      some defaultEntry :=
  C5_tls_items_stay_default.2.2 "16" (by decide) [] (.ok []) (.ok [])
    "example.com" 443 (TlsOutcome.connError "timeout")

/-- C6 counterexample: for a response with no headers at all, the
X-Frame-Options probe result has severity "medium" (not "high"), and the
item it maps to (item 8) gets status "Y" (not "N"). -/
theorem C6_counterexample :
    ((headers_run []).find? (fun r => r.name == "X-Frame-Options")).map
      (fun r => r.severity) = some "medium" ∧
    (List.lookup "8" (evaluate_compliance [] (.ok (headers_run []))
      (.ok []) (.ok []))).map (fun e => e.status) = some "Y" := by
  exact ⟨by decide, by decide⟩

/-- C6 amended: a missing header yields a finding whose severity depends
on the header — "high" only for Strict-Transport-Security and
Content-Security-Policy, "medium" for X-Frame-Options and
X-Content-Type-Options, "low" for the remaining four — and the mapped
matrix item gets status "N" only for severities high/critical/error; in
particular, for every response without a Strict-Transport-Security
header, item 9 gets status "N" with severity "high". -/
theorem C6_header_absent_severities :
    (∀ hdrs, getH hdrs "strict-transport-security" = none →
      List.lookup "9" (evaluate_compliance [] (.ok (headers_run hdrs))
        (.ok []) (.ok [])) =
        some ⟨"N", "ERROR: HSTS header is missing.", "high"⟩) ∧
    ((headers_run []).map (fun r => (r.name, r.severity)) =
      [("Strict-Transport-Security", "high"), ("Content-Security-Policy", "high"),
       ("X-Frame-Options", "medium"), ("X-Content-Type-Options", "medium"),
       ("Referrer-Policy", "low"), ("Permissions-Policy", "low"),
       ("Cross-Origin-Opener-Policy", "low"), ("Cross-Origin-Embedder-Policy", "low")]) := by
  exact ⟨lookup_nine_hsts_missing, by decide⟩

/-- C6 witness: a concrete response lacking Strict-Transport-Security
yields status "N" and severity "high" on item 9. -/
theorem C6_header_absent_severities_witness :
    List.lookup "9" (evaluate_compliance []
      (.ok (headers_run [("server", "nginx")])) (.ok []) (.ok [])) =
      some ⟨"N", "ERROR: HSTS header is missing.", "high"⟩ :=
  C6_header_absent_severities.1 [("server", "nginx")] (by decide)

/-- C8: every open port outside 80/443 produces a port finding; a single
finding on any of the historically dangerous ports 21, 23, 3389, 445,
139 puts item 1 at status "N" severity "critical", a single finding on
the alternate web ports 8080, 8443, 8000 puts item 1 at status "Y"
severity "warning", and when no port outside 80/443 is open item 1 keeps
the compliant default. -/
theorem C8_port_tiers :
    (∀ (openPorts : List Nat) (p : Nat), p ∈ openPorts → ¬(p = 80 ∨ p = 443) →
      ((findingsFromOpenPorts openPorts).any
        (fun f => f.name == portFindingName p)) = true) ∧
    (∀ p ∈ [21, 23, 3389, 445, 139], ∀ hres cres tres,
      List.lookup "1" (evaluate_compliance (findingsFromOpenPorts [p])
        hres cres tres) =
        some ⟨"N", "CRITICAL: " ++ portFindingName p ++
          " exposed. Non-standard service port detected.", "critical"⟩) ∧
    (∀ p ∈ [8080, 8443, 8000], ∀ hres cres tres,
      List.lookup "1" (evaluate_compliance (findingsFromOpenPorts [p])
        hres cres tres) =
        some ⟨"Y", "WARNING: " ++ portFindingName p ++
          " detected. Alternative web ports are open but acceptable.", "warning"⟩) ∧
    (∀ (openPorts : List Nat) hres cres tres,
      (∀ p ∈ openPorts, p = 80 ∨ p = 443) →
      List.lookup "1" (evaluate_compliance (findingsFromOpenPorts openPorts)
        hres cres tres) = some defaultEntry) := by
  refine ⟨?_, ?_, ?_, ?_⟩
  · intro openPorts p hp hn
    push_neg at hn
    apply List.any_eq_true.mpr
    refine ⟨⟨portFindingName p, "Port " ++ toString p ++ " is open."⟩, ?_, by simp⟩
    unfold findingsFromOpenPorts
    apply List.mem_map.mpr
    refine ⟨p, List.mem_filter.mpr ⟨hp, ?_⟩, rfl⟩
    simp only [Bool.not_eq_true', Bool.or_eq_false_iff]
    exact ⟨beq_eq_false_iff_ne.mpr hn.1, beq_eq_false_iff_ne.mpr hn.2⟩
  · intro p hp hres cres tres
    rw [lookup_one_evaluate]
    fin_cases hp <;> decide
  · intro p hp hres cres tres
    rw [lookup_one_evaluate]
    fin_cases hp <;> decide
  · intro openPorts hres cres tres hall
    have hnil : findingsFromOpenPorts openPorts = [] := by
      unfold findingsFromOpenPorts
      rw [List.filter_eq_nil_iff.mpr]
      · rfl
      · intro a ha
        rcases hall a ha with h | h <;> subst h <;> decide
    rw [hnil, lookup_one_evaluate]
    decide

/-- C8 witness: with only ports 80 and 443 open, no finding is generated
and item 1 keeps the default; a finding on port 21 makes it critical. -/
theorem C8_port_tiers_witness :
    List.lookup "1" (evaluate_compliance (findingsFromOpenPorts [80, 443])
      (.ok []) (.ok []) (.ok [])) = some defaultEntry ∧
    List.lookup "1" (evaluate_compliance (findingsFromOpenPorts [21])
      (.ok []) (.ok []) (.ok [])) =
      some ⟨"N", "CRITICAL: " ++ portFindingName 21 ++
        " exposed. Non-standard service port detected.", "critical"⟩ := by
  constructor
  · exact C8_port_tiers.2.2.2 [80, 443] (.ok []) (.ok []) (.ok []) (by decide)
  · exact C8_port_tiers.2.1 21 (by decide) (.ok []) (.ok []) (.ok [])
